import Mathlib

/-!
Shallow embedding of the In Forma Pauperis guided-interview application
(`src/app.py`): the question schema, the field-position registry, the
interview state machine (`default_state`, `current_question`,
`normalize_value`, `save_answer_and_move`, `on_next_or_finish`, `on_back`)
and the document overlay compositor (`create_overlay_pdf`, `fill_pdf`).

Conventions of the embedding:
* Python dicts with string keys become association lists in insertion
  order; `dictSet` mirrors `d[k] = v` (update in place, append if new)
  and `dictGet` mirrors `d.get(k, default)`.
* Python numeric values reaching `float(...)` are modelled as exact
  decimal numbers (`DecNum`, value `mant / 10 ^ fracDigits` with a sign):
  the claims under check only exercise plain decimal literals, where
  binary floating point and exact decimal arithmetic agree.
* External effects are made explicit: `os.path.exists(TEMPLATE_PDF_PATH)`
  becomes a `templateExists : Bool` argument, the template PDF's pages an
  abstract `List Nat` of page contents, and the reportlab `drawString`
  call - which may raise - an oracle `drawOk : DrawCmd → Bool` telling
  which draws succeed.  Fallible code returns `Except RenderError`.
-/

namespace IFP

/-- Question record, mirroring the `Question` dataclass of `src/app.py`
(fields `key`, `label`, `qtype`, `choices`, `placeholder`). -/
structure Question where
  key : String
  label : String
  qtype : String
  choices : Option (List String)
  placeholder : String
  deriving DecidableEq

/-- The fixed question schema `QUESTIONS` of `src/app.py`, in order. -/
def QUESTIONS : List Question := [
  Question.mk "full_name" "Your full legal name" "text" Option.none "Jane Doe",
  Question.mk "address" "Street address" "text" Option.none "123 Main St",
  Question.mk "city_state_zip" "City, State, ZIP" "text" Option.none "Springfield, MO 65807",
  Question.mk "phone" "Phone number" "text" Option.none "(555) 555-5555",
  Question.mk "email" "Email (optional)" "text" Option.none "name@example.com",
  Question.mk "case_type" "Type of case" "radio"
    (Option.some ["Dissolution of Marriage (Divorce)", "Legal Separation",
      "Modification/Post-Decree", "Other Family Law"]) "",
  Question.mk "employment_status" "Employment status" "radio"
    (Option.some ["Employed", "Unemployed", "Self-employed", "Disabled", "Retired"]) "",
  Question.mk "monthly_income" "Total monthly income (USD)" "number" Option.none "0",
  Question.mk "cash_on_hand" "Cash on hand (USD)" "number" Option.none "0",
  Question.mk "bank_balance" "Total bank account balances (USD)" "number" Option.none "0",
  Question.mk "monthly_expenses" "Average monthly expenses (USD)" "number" Option.none "0",
  Question.mk "dependents" "Number of dependents you support" "number" Option.none "0",
  Question.mk "government_assistance" "Do you receive public benefits? If yes, list programs."
    "multiline" Option.none "Example: SNAP, Medicaid, TANF",
  Question.mk "debts" "Briefly list significant debts" "multiline" Option.none
    "Credit cards, medical bills, etc.",
  Question.mk "hardship_explanation" "Explain why you cannot afford filing fees" "multiline"
    Option.none "Briefly describe your financial hardship.",
  Question.mk "date_signed" "Date (MM/DD/YYYY)" "text" Option.none "MM/DD/YYYY",
  Question.mk "signature_name" "Type your name as signature" "text" Option.none "Jane Doe"]

/-- The configured template location `TEMPLATE_PDF_PATH` of `src/app.py`. -/
def TEMPLATE_PDF_PATH : String := "Missouri - InFormaPauperis.pdf"

/-- The field-position registry `PDF_FIELD_POSITIONS` of `src/app.py`:
entries `(key, page_index, x, y)` in the dict's insertion order. -/
def PDF_FIELD_POSITIONS : List (String × Nat × Nat × Nat) := [
  ("full_name", 0, 120, 700),
  ("address", 0, 120, 680),
  ("city_state_zip", 0, 120, 660),
  ("phone", 0, 120, 640),
  ("email", 0, 360, 640),
  ("case_type", 0, 120, 615),
  ("employment_status", 0, 120, 590),
  ("monthly_income", 0, 120, 570),
  ("cash_on_hand", 0, 120, 550),
  ("bank_balance", 0, 120, 530),
  ("monthly_expenses", 0, 120, 510),
  ("dependents", 0, 120, 490),
  ("government_assistance", 0, 120, 470),
  ("debts", 0, 120, 450),
  ("hardship_explanation", 0, 120, 420),
  ("date_signed", 0, 120, 160),
  ("signature_name", 0, 360, 160)]

/-- Python dict assignment `d[k] = v` on a string-keyed dict kept as an
association list in insertion order: replace in place, append if absent. -/
def dictSet : List (String × String) → String → String → List (String × String)
  | [], k, v => [(k, v)]
  | (k0, v0) :: rest, k, v =>
    if k0 = k then (k, v) :: rest else (k0, v0) :: dictSet rest k v

/-- Python `d.get(k, default)` on a string-keyed dict. -/
def dictGet : List (String × String) → String → String → String
  | [], _, d => d
  | (k0, v0) :: rest, k, d => if k0 = k then v0 else dictGet rest k d

/-- Interview session state: the Python session dict with keys `step`
(a Python int) and `answers`. -/
structure IState where
  step : Int
  answers : List (String × String)
  deriving DecidableEq

/-- `default_state()` of `src/app.py`: step 0 and one empty-string answer
per question key. -/
def default_state : IState :=
  IState.mk 0 (QUESTIONS.map (fun q => (q.key, "")))

/-- Fallback question used to express list indexing after the clamp in
`current_question`; the clamp keeps every index in range, so this value
is never actually selected. -/
def qFallback : Question := Question.mk "" "" "text" Option.none ""

/-- `current_question(step)` of `src/app.py`: clamp the step into
`[0, len(QUESTIONS) - 1]` and index the schema. -/
def current_question (step : Int) : Question :=
  QUESTIONS.getD (max 0 (min step ((QUESTIONS.length : Int) - 1))).toNat qFallback

/-- Exact decimal number standing in for a Python float: the value is
`mant / 10 ^ fracDigits`, negated when `neg` is true. -/
structure DecNum where
  neg : Bool
  mant : Nat
  fracDigits : Nat
  deriving DecidableEq

/-- Raw widget value as Python sees it: `None`, a string, or a number
(the `gr.Number` widget delivers a float or `None`). -/
inductive RawValue where
  | none : RawValue
  | str : String → RawValue
  | num : DecNum → RawValue
  deriving DecidableEq

/-- Digit string to natural number, most significant digit first. -/
def digitsToNat (cs : List Char) : Nat :=
  cs.foldl (fun acc c => acc * 10 + (c.toNat - 48)) 0

/-- Whether every character of the list is a decimal digit. -/
def allDigits (cs : List Char) : Bool :=
  cs.all (fun c => c.isDigit)

/-- Python `float(s)` on a plain decimal string literal: optional sign,
digits, optional single decimal point, at least one digit overall
(accepting forms like "12", "12.", ".5", "-3.25").  Scientific notation,
infinities, NaN, underscores and surrounding whitespace - which the claims
never exercise - are treated as parse failures. -/
def parseDec (s : String) : Option DecNum :=
  let cs := s.data
  let signed : Bool × List Char :=
    match cs with
    | c :: r => if c = '-' then (true, r) else if c = '+' then (false, r) else (false, cs)
    | [] => (false, cs)
  let neg := signed.1
  let rest := signed.2
  let ip := rest.takeWhile (fun c => c ≠ '.')
  match rest.dropWhile (fun c => c ≠ '.') with
  | [] =>
    if ip ≠ [] ∧ allDigits ip then Option.some (DecNum.mk neg (digitsToNat ip) 0)
    else Option.none
  | _ :: fp =>
    if (ip ≠ [] ∨ fp ≠ []) ∧ allDigits ip ∧ allDigits fp then
      Option.some (DecNum.mk neg (digitsToNat (ip ++ fp)) fp.length)
    else Option.none

/-- Python `n.is_integer()` on the modelled float `n`. -/
def decIsInteger (d : DecNum) : Bool :=
  d.mant % 10 ^ d.fracDigits == 0

/-- Python `str(int(n))` for a whole-valued `n` (note `int(-0.0)` is `0`,
so the sign disappears on a zero value). -/
def pyIntStr (d : DecNum) : String :=
  let v : Int := (d.mant / 10 ^ d.fracDigits : Nat)
  toString (if d.neg then -v else v)

/-- Round the non-negative rational `num / den` (with `den > 0`) to the
nearest integer, ties to even - the rounding of Python float formatting. -/
def roundHalfEven (num den : Nat) : Nat :=
  let q := num / den
  let r := num % den
  if 2 * r < den then q
  else if den < 2 * r then q + 1
  else if q % 2 = 0 then q else q + 1

/-- Python two-decimal formatting of the modelled float `n`: the integer
part, a point, and exactly two decimal digits (rounded, ties to even). -/
def twoDecStr (d : DecNum) : String :=
  let scaled := roundHalfEven (d.mant * 100) (10 ^ d.fracDigits)
  (if d.neg then "-" else "") ++ toString (scaled / 100) ++ "." ++
    String.mk [Nat.digitChar (scaled / 10 % 10), Nat.digitChar (scaled % 10)]

/-- Rendering of a modelled float used where `str(value)` meets a numeric
value.  In the application's data flow a numeric widget value is only ever
normalized with qtype "number", whose parse always succeeds, so this
stand-in for Python float repr is never reached on those paths. -/
def decRepr (d : DecNum) : String :=
  (if d.neg then "-" else "") ++ toString (d.mant / 10 ^ d.fracDigits) ++ "." ++
    toString (d.mant % 10 ^ d.fracDigits)

/-- Python `str(value)` on a raw widget value. -/
def pyStr : RawValue → String
  | RawValue.none => "None"
  | RawValue.str s => s
  | RawValue.num d => decRepr d

/-- Python `float(value)` on a raw widget value: `None` raises (modelled
as a failed parse), strings are parsed, numbers pass through. -/
def tryFloat : RawValue → Option DecNum
  | RawValue.none => Option.none
  | RawValue.str s => parseDec s
  | RawValue.num d => Option.some d

/-- `normalize_value(value, qtype)` of `src/app.py`: `None` becomes the
empty string; for qtype "number", a successful parse is stored as the
canonical integer string when whole and as a two-decimal string
otherwise, and a failed parse falls back to `str(value)`; every other
qtype stores `str(value)`. -/
def normalize_value (value : RawValue) (qtype : String) : String :=
  match value with
  | RawValue.none => ""
  | v =>
    if qtype = "number" then
      match tryFloat v with
      | Option.some n => if decIsInteger n then pyIntStr n else twoDecStr n
      | Option.none => pyStr v
    else pyStr v

/-- The four widget values passed into `save_answer_and_move`
(`text_val`, `number_val`, `radio_val`, `multiline_val`). -/
structure Inputs where
  text_val : RawValue
  number_val : RawValue
  radio_val : RawValue
  multiline_val : RawValue
  deriving DecidableEq

/-- The `raw_val` selection of `save_answer_and_move` (lines 157-165 of
`src/app.py`): pick the widget matching the question's type, defaulting
to the empty string. -/
def selectRaw (q : Question) (inp : Inputs) : RawValue :=
  if q.qtype = "text" then inp.text_val
  else if q.qtype = "number" then inp.number_val
  else if q.qtype = "radio" then inp.radio_val
  else if q.qtype = "multiline" then inp.multiline_val
  else RawValue.str ""

/-- The progress string built by `ui_for_question`. -/
def progressLabel (q : Question) : String :=
  "Question " ++ toString (QUESTIONS.indexOf q + 1) ++ " of " ++ toString QUESTIONS.length

/-- What `save_answer_and_move` returns, with the gradio widget-update
payloads reduced to the data they carry: the new state, the stored answer
re-displayed for the new current question, the progress string, whether
the back button is interactive, and the next button's label. -/
structure SaveResult where
  state : IState
  shown : String
  prog : String
  canGoBack : Bool
  nextLabel : String
  deriving DecidableEq

/-- `save_answer_and_move(state, ..., delta)` of `src/app.py`: normalize
and store the current question's widget value, then move the step by
`delta` clamped into `[0, len(QUESTIONS) - 1]`. -/
def save_answer_and_move (st : IState) (inp : Inputs) (delta : Int) : SaveResult :=
  let q := current_question st.step
  let answers1 := dictSet st.answers q.key (normalize_value (selectRaw q inp) q.qtype)
  let new_step := max 0 (min (st.step + delta) ((QUESTIONS.length : Int) - 1))
  let q2 := current_question new_step
  SaveResult.mk (IState.mk new_step answers1) (dictGet answers1 q2.key "")
    (progressLabel q2) (decide (0 < new_step))
    (if new_step = (QUESTIONS.length : Int) - 1 then "Finish & Generate PDF" else "Next")

/-- `start_interview` of `src/app.py`, reduced to its effect on the
session state: whatever state is passed in, it is replaced by
`default_state()`. -/
def start_interview (_st : IState) : IState :=
  default_state

/-- One text-draw on the overlay canvas (`c.drawString(x, y, value)`),
with the registry key that emitted it recorded for specification
purposes. -/
structure DrawCmd where
  fieldKey : String
  x : Nat
  y : Nat
  text : String
  deriving DecidableEq

/-- Error kinds a render can surface: the `FileNotFoundError` raised by
`fill_pdf` when the template is missing, and an exception raised by the
external text-drawing call for one field. -/
inductive RenderError where
  | templateMissing : String → RenderError
  | drawFail : String → RenderError
  deriving DecidableEq

/-- Human-readable text of a render error, as interpolated into the
status message by `on_next_or_finish`.  The draw-failure text stands in
for whatever the external library's exception prints. -/
def errMsg : RenderError → String
  | RenderError.templateMissing m => m
  | RenderError.drawFail k => "draw error on field " ++ k

/-- The inner field loop of `create_overlay_pdf` for one page: walk the
registry in order, skip entries for other pages and empty answers, and
draw each remaining value at its coordinates.  A draw the oracle refuses
raises, aborting the whole loop - the source has no handler here. -/
def drawFieldsOnPage (drawOk : DrawCmd → Bool) (answers : List (String × String))
    (page_index : Nat) : List (String × Nat × Nat × Nat) → Except RenderError (List DrawCmd)
  | [] => Except.ok []
  | (key, p_idx, x, y) :: rest =>
    if p_idx ≠ page_index then drawFieldsOnPage drawOk answers page_index rest
    else
      let value := dictGet answers key ""
      if value = "" then drawFieldsOnPage drawOk answers page_index rest
      else
        let cmd := DrawCmd.mk key x y value
        if drawOk cmd then
          match drawFieldsOnPage drawOk answers page_index rest with
          | Except.ok cmds => Except.ok (cmd :: cmds)
          | Except.error e => Except.error e
        else Except.error (RenderError.drawFail key)

/-- The page loop of `create_overlay_pdf`: one overlay page (closed by
`c.showPage()`) per listed page index, in order; an exception on any page
propagates. -/
def buildOverlayPages (drawOk : DrawCmd → Bool) (answers : List (String × String)) :
    List Nat → Except RenderError (List (List DrawCmd))
  | [] => Except.ok []
  | pi :: rest =>
    match drawFieldsOnPage drawOk answers pi PDF_FIELD_POSITIONS with
    | Except.error e => Except.error e
    | Except.ok cmds =>
      match buildOverlayPages drawOk answers rest with
      | Except.error e => Except.error e
      | Except.ok pages => Except.ok (cmds :: pages)

/-- `create_overlay_pdf(answers, num_pages)` of `src/app.py`: the overlay
document as the list of draw commands of each of its `num_pages` pages. -/
def create_overlay_pdf (drawOk : DrawCmd → Bool) (answers : List (String × String))
    (num_pages : Nat) : Except RenderError (List (List DrawCmd)) :=
  buildOverlayPages drawOk answers (List.range num_pages)

/-- One page of the output document: a template page passed through
unmodified, or a template page with an overlay page merged on top. -/
inductive OutPage where
  | plain : Nat → OutPage
  | merged : Nat → List DrawCmd → OutPage
  deriving DecidableEq

/-- The writer loop of `fill_pdf` (lines 271-276 of `src/app.py`): for
each template page index, merge the overlay page of the same index when
the overlay has one, and pass the template page through otherwise. -/
def mergePages (tpl : List Nat) (ov : List (List DrawCmd)) : List OutPage :=
  (List.range tpl.length).map (fun i =>
    if i < ov.length then OutPage.merged (tpl.getD i 0) (ov.getD i [])
    else OutPage.plain (tpl.getD i 0))

/-- The `FileNotFoundError` message raised by `fill_pdf` when the
template cannot be resolved. -/
def templateMissingMsg : String :=
  "Template PDF not found at '" ++ TEMPLATE_PDF_PATH ++
    "'. Place the IFP form in the repository and update TEMPLATE_PDF_PATH if needed."

/-- `fill_pdf(answers)` of `src/app.py`.  `templateExists` models
`os.path.exists(TEMPLATE_PDF_PATH)` and `tpl` the template document's
pages; the output document is returned instead of written to a
temporary file. -/
def fill_pdf (drawOk : DrawCmd → Bool) (templateExists : Bool) (tpl : List Nat)
    (answers : List (String × String)) : Except RenderError (List OutPage) :=
  if templateExists = false then
    Except.error (RenderError.templateMissing templateMissingMsg)
  else
    match create_overlay_pdf drawOk answers tpl.length with
    | Except.error e => Except.error e
    | Except.ok ov => Except.ok (mergePages tpl ov)

/-- What `on_next_or_finish` returns: the `save_answer_and_move` payload,
the answer set handed to `fill_pdf` when finalize fired (recorded for
specification purposes), the download widget's document (hidden /
`None` unless a PDF was produced), and the status text. -/
structure NextOut where
  save : SaveResult
  finalized : Option (List (String × String))
  download : Option (List OutPage)
  status : String

/-- `on_next_or_finish(state, ...)` of `src/app.py`: at the last step the
forward move keeps the step (delta 0) and runs `fill_pdf` on the saved
answers inside a try/except; otherwise delta is 1 and no render runs. -/
def on_next_or_finish (drawOk : DrawCmd → Bool) (templateExists : Bool) (tpl : List Nat)
    (st : IState) (inp : Inputs) : NextOut :=
  let at_last := st.step = (QUESTIONS.length : Int) - 1
  let r := save_answer_and_move st inp (if at_last then 0 else 1)
  let dl_status : Option (List OutPage) × String :=
    if at_last then
      match fill_pdf drawOk templateExists tpl r.state.answers with
      | Except.ok out =>
        (Option.some out,
          "PDF generated successfully. Review and sign where required before filing.")
      | Except.error e => (Option.none, "Could not generate PDF: " ++ errMsg e)
    else (Option.none, "")
  NextOut.mk r (if at_last then Option.some r.state.answers else Option.none)
    dl_status.1 dl_status.2

/-- `on_back(state, ...)` of `src/app.py`: save and move with delta -1. -/
def on_back (st : IState) (inp : Inputs) : SaveResult :=
  save_answer_and_move st inp (-1)

/-- One front-end transition request: a press of the Next/Finish button
or of the Back button, with the widget values it carries. -/
inductive Op where
  | next : Inputs → Op
  | back : Inputs → Op

/-- The session state after handling one transition request. -/
def applyOp (drawOk : DrawCmd → Bool) (templateExists : Bool) (tpl : List Nat)
    (st : IState) : Op → IState
  | Op.next inp => (on_next_or_finish drawOk templateExists tpl st inp).save.state
  | Op.back inp => (on_back st inp).state

/-- The session state reached from `start_interview` after a finite
sequence of transition requests. -/
def runSession (drawOk : DrawCmd → Bool) (templateExists : Bool) (tpl : List Nat)
    (st0 : IState) (ops : List Op) : IState :=
  ops.foldl (applyOp drawOk templateExists tpl) (start_interview st0)

/-- Draw oracle under which every text draw succeeds (the normal case). -/
def allOk : DrawCmd → Bool := fun _ => true

/-- The exact rational value of a modelled float. -/
def decVal (d : DecNum) : Rat :=
  (if d.neg then -1 else 1) * (d.mant : Rat) / ((10 : Rat) ^ d.fracDigits)

/-- The draw commands `create_overlay_pdf` emits for one page when every
draw succeeds: the registry entries of the page whose answer is
non-empty, in registry order (proof-side companion of
`drawFieldsOnPage`). -/
def pageCmds (answers : List (String × String)) (page_index : Nat) :
    List (String × Nat × Nat × Nat) → List DrawCmd
  | [] => []
  | (key, p_idx, x, y) :: rest =>
    if p_idx ≠ page_index then pageCmds answers page_index rest
    else if dictGet answers key "" = "" then pageCmds answers page_index rest
    else DrawCmd.mk key x y (dictGet answers key "") :: pageCmds answers page_index rest

/-- Widget payload with every input blank. -/
def blankInputs : Inputs :=
  Inputs.mk (RawValue.str "") RawValue.none RawValue.none (RawValue.str "")

/-- Draw oracle that fails on the single field `full_name` and succeeds
on every other field. -/
def cexDrawOk : DrawCmd → Bool := fun c => c.fieldKey != "full_name"

/-- Answer set with two non-empty answers, `full_name` and `address`. -/
def cexAnswers : List (String × String) :=
  dictSet (dictSet default_state.answers "full_name" "John Q Public") "address" "12 Oak Lane"

/-- Widget payload with a name typed into the text widget. -/
def wInputs : Inputs :=
  Inputs.mk (RawValue.str "Jane Doe") RawValue.none RawValue.none (RawValue.str "")

/-- Session state parked at the last question. -/
def wStateLast : IState :=
  IState.mk ((QUESTIONS.length : Int) - 1) default_state.answers

/-- Answer set with a single non-empty answer, `phone`. -/
def wAnswers : List (String × String) :=
  dictSet default_state.answers "phone" "555"

/-! ## Basic lemmas about the embedded operations -/

theorem QUESTIONS_length : QUESTIONS.length = 17 := rfl

theorem dictGet_dictSet_self (l : List (String × String)) (k v d : String) :
    dictGet (dictSet l k v) k d = v := by
  induction l with
  | nil => simp [dictSet, dictGet]
  | cons p rest ih =>
    by_cases h : p.1 = k
    · obtain ⟨k0, v0⟩ := p
      simp only at h
      simp [dictSet, dictGet, h]
    · obtain ⟨k0, v0⟩ := p
      simp only at h
      simp [dictSet, dictGet, h, ih]

theorem dictGet_dictSet_ne (l : List (String × String)) (k0 v k d : String)
    (h : k ≠ k0) : dictGet (dictSet l k0 v) k d = dictGet l k d := by
  have hne : ¬(k0 = k) := fun hh => h hh.symm
  induction l with
  | nil =>
    show (if k0 = k then v else d) = d
    exact if_neg hne
  | cons p rest ih =>
    obtain ⟨k1, v1⟩ := p
    by_cases h1 : k1 = k0
    · have hne1 : ¬(k1 = k) := fun hh => hne (h1.symm.trans hh)
      simp only [dictSet, if_pos h1, dictGet, if_neg hne, if_neg hne1]
    · by_cases h2 : k1 = k
      · simp only [dictSet, if_neg h1, dictGet, if_pos h2]
      · simp only [dictSet, if_neg h1, dictGet, if_neg h2]
        exact ih

theorem keys_dictSet (l : List (String × String)) (k v : String)
    (h : k ∈ l.map Prod.fst) : (dictSet l k v).map Prod.fst = l.map Prod.fst := by
  induction l with
  | nil => simp at h
  | cons p rest ih =>
    obtain ⟨k0, v0⟩ := p
    by_cases hk : k0 = k
    · simp [dictSet, hk]
    · simp only [List.map_cons, List.mem_cons] at h
      rcases h with h | h
      · exact absurd h.symm hk
      · simp [dictSet, hk, ih h]

theorem save_state_step (st : IState) (inp : Inputs) (delta : Int) :
    (save_answer_and_move st inp delta).state.step =
      max 0 (min (st.step + delta) ((QUESTIONS.length : Int) - 1)) := rfl

theorem save_state_answers (st : IState) (inp : Inputs) (delta : Int) :
    (save_answer_and_move st inp delta).state.answers =
      dictSet st.answers (current_question st.step).key
        (normalize_value (selectRaw (current_question st.step) inp)
          (current_question st.step).qtype) := rfl

theorem on_next_save (drawOk : DrawCmd → Bool) (templateExists : Bool) (tpl : List Nat)
    (st : IState) (inp : Inputs) :
    (on_next_or_finish drawOk templateExists tpl st inp).save =
      save_answer_and_move st inp
        (if st.step = (QUESTIONS.length : Int) - 1 then 0 else 1) := rfl

theorem save_step_bounds (st : IState) (inp : Inputs) (delta : Int) :
    0 ≤ (save_answer_and_move st inp delta).state.step ∧
      (save_answer_and_move st inp delta).state.step ≤ (QUESTIONS.length : Int) - 1 := by
  rw [save_state_step, QUESTIONS_length]
  refine ⟨le_max_left 0 _, max_le (by norm_num) (min_le_right _ _)⟩

theorem current_question_mem (s : Int) : current_question s ∈ QUESTIONS := by
  unfold current_question
  have h : (max 0 (min s ((QUESTIONS.length : Int) - 1))).toNat < QUESTIONS.length := by
    rw [QUESTIONS_length]
    omega
  rw [List.getD_eq_getElem QUESTIONS qFallback h]
  exact List.getElem_mem h

theorem default_state_keys :
    default_state.answers.map Prod.fst = QUESTIONS.map Question.key := by
  simp [default_state, List.map_map, Function.comp]

theorem applyOp_keys (drawOk : DrawCmd → Bool) (templateExists : Bool) (tpl : List Nat)
    (st : IState) (op : Op)
    (h : st.answers.map Prod.fst = QUESTIONS.map Question.key) :
    (applyOp drawOk templateExists tpl st op).answers.map Prod.fst =
      QUESTIONS.map Question.key := by
  have hkey : (current_question st.step).key ∈ st.answers.map Prod.fst := by
    rw [h]
    exact List.mem_map_of_mem Question.key (current_question_mem st.step)
  cases op with
  | next inp =>
    show ((on_next_or_finish drawOk templateExists tpl st inp).save.state.answers).map
      Prod.fst = _
    rw [on_next_save, save_state_answers, keys_dictSet _ _ _ hkey, h]
  | back inp =>
    show ((save_answer_and_move st inp (-1)).state.answers).map Prod.fst = _
    rw [save_state_answers, keys_dictSet _ _ _ hkey, h]

theorem foldl_keys (drawOk : DrawCmd → Bool) (templateExists : Bool) (tpl : List Nat)
    (ops : List Op) (st : IState)
    (h : st.answers.map Prod.fst = QUESTIONS.map Question.key) :
    (ops.foldl (applyOp drawOk templateExists tpl) st).answers.map Prod.fst =
      QUESTIONS.map Question.key := by
  induction ops generalizing st with
  | nil => exact h
  | cons op rest ih =>
    exact ih _ (applyOp_keys drawOk templateExists tpl st op h)

theorem applyOp_step_bounds (drawOk : DrawCmd → Bool) (templateExists : Bool)
    (tpl : List Nat) (st : IState) (op : Op) :
    0 ≤ (applyOp drawOk templateExists tpl st op).step ∧
      (applyOp drawOk templateExists tpl st op).step ≤ (QUESTIONS.length : Int) - 1 := by
  cases op with
  | next inp =>
    show 0 ≤ (on_next_or_finish drawOk templateExists tpl st inp).save.state.step ∧ _
    rw [on_next_save]
    exact save_step_bounds st inp _
  | back inp => exact save_step_bounds st inp (-1)

theorem foldl_step_bounds (drawOk : DrawCmd → Bool) (templateExists : Bool)
    (tpl : List Nat) (ops : List Op) (st : IState)
    (h : 0 ≤ st.step ∧ st.step ≤ (QUESTIONS.length : Int) - 1) :
    0 ≤ (ops.foldl (applyOp drawOk templateExists tpl) st).step ∧
      (ops.foldl (applyOp drawOk templateExists tpl) st).step ≤
        (QUESTIONS.length : Int) - 1 := by
  induction ops generalizing st with
  | nil => exact h
  | cons op rest ih =>
    exact ih _ (applyOp_step_bounds drawOk templateExists tpl st op)

/-! ## The claims -/

/-- C1: for every session state created by `start_interview` and mutated
by any finite sequence of forward (`on_next_or_finish`) and backward
(`on_back`) transitions, the `step` field stays in `[0, N-1]` where `N`
is the number of questions: retreating never drives it below 0 and
advancing never drives it above `N-1`. -/
theorem C1_step_in_range (drawOk : DrawCmd → Bool) (templateExists : Bool)
    (tpl : List Nat) (st0 : IState) (ops : List Op) :
    0 ≤ (runSession drawOk templateExists tpl st0 ops).step ∧
      (runSession drawOk templateExists tpl st0 ops).step ≤
        (QUESTIONS.length : Int) - 1 := by
  refine foldl_step_bounds drawOk templateExists tpl ops (start_interview st0) ?_
  refine ⟨le_refl 0, ?_⟩
  show (0 : Int) ≤ (QUESTIONS.length : Int) - 1
  rw [QUESTIONS_length]
  norm_num

/-- C4: for every session state created by `start_interview` and mutated
by any finite sequence of forward and backward transitions, the key set
of the answers mapping equals exactly the key set of the question
schema - no key is ever added or removed, only values change. -/
theorem C4_answer_keys_schema (drawOk : DrawCmd → Bool) (templateExists : Bool)
    (tpl : List Nat) (st0 : IState) (ops : List Op) (k : String) :
    k ∈ (runSession drawOk templateExists tpl st0 ops).answers.map Prod.fst ↔
      k ∈ QUESTIONS.map Question.key := by
  rw [runSession, foldl_keys drawOk templateExists tpl ops (start_interview st0)
    default_state_keys]

/-- C9: for every session state with `step = 0` and every raw value,
the backward transition leaves `step = 0` and still stores the
normalized raw value into the answer set under the key of question 0
(`full_name`, of type text, so the text widget's value is the one
saved). -/
theorem C9_retreat_at_zero (st : IState) (inp : Inputs) (hstep : st.step = 0) :
    (on_back st inp).state.step = 0 ∧
    (QUESTIONS.getD 0 qFallback).key = "full_name" ∧
    dictGet (on_back st inp).state.answers "full_name" "" =
      normalize_value inp.text_val "text" := by
  refine ⟨?_, rfl, ?_⟩
  · show (save_answer_and_move st inp (-1)).state.step = 0
    rw [save_state_step, hstep, QUESTIONS_length]
    decide
  · show dictGet (save_answer_and_move st inp (-1)).state.answers "full_name" "" = _
    rw [save_state_answers, hstep]
    show dictGet (dictSet st.answers "full_name"
      (normalize_value inp.text_val "text")) "full_name" "" = _
    exact dictGet_dictSet_self st.answers "full_name" _ ""

/-- C10: a single forward or backward transition changes the value of at
most one answer key - the key of the question at the step current when
the call began - and leaves every other answer key's value unchanged. -/
theorem C10_transition_frame (drawOk : DrawCmd → Bool) (templateExists : Bool)
    (tpl : List Nat) (st : IState) (inp : Inputs) (k d : String)
    (hk : k ≠ (current_question st.step).key) :
    dictGet (on_next_or_finish drawOk templateExists tpl st inp).save.state.answers k d =
        dictGet st.answers k d ∧
      dictGet (on_back st inp).state.answers k d = dictGet st.answers k d := by
  constructor
  · rw [on_next_save, save_state_answers]
    exact dictGet_dictSet_ne st.answers _ _ k d hk
  · show dictGet (save_answer_and_move st inp (-1)).state.answers k d = _
    rw [save_state_answers]
    exact dictGet_dictSet_ne st.answers _ _ k d hk

/-- C7: when the forward transition is taken while `step = N-1`, the
normalized raw value is stored under the last question's key
(`signature_name`, of type text) before the finalize signal fires: the
answer set recorded for the compositor is exactly the saved answer set,
it maps the last question's key to the normalized last-entered value,
and the step remains `N-1`. -/
theorem C7_finalize_includes_last_answer (drawOk : DrawCmd → Bool)
    (templateExists : Bool) (tpl : List Nat) (st : IState) (inp : Inputs)
    (hstep : st.step = (QUESTIONS.length : Int) - 1) :
    (on_next_or_finish drawOk templateExists tpl st inp).finalized =
        Option.some (on_next_or_finish drawOk templateExists tpl st inp).save.state.answers ∧
      (on_next_or_finish drawOk templateExists tpl st inp).save.state.step =
        (QUESTIONS.length : Int) - 1 ∧
      (QUESTIONS.getD (QUESTIONS.length - 1) qFallback).key = "signature_name" ∧
      dictGet (on_next_or_finish drawOk templateExists tpl st inp).save.state.answers
        "signature_name" "" = normalize_value inp.text_val "text" := by
  refine ⟨?_, ?_, rfl, ?_⟩
  · have h1 : (on_next_or_finish drawOk templateExists tpl st inp).finalized =
        (if st.step = (QUESTIONS.length : Int) - 1 then
          Option.some (save_answer_and_move st inp
            (if st.step = (QUESTIONS.length : Int) - 1 then 0 else 1)).state.answers
        else Option.none) := rfl
    rw [h1, on_next_save, if_pos hstep]
  · rw [on_next_save, save_state_step, hstep, QUESTIONS_length]
    decide
  · rw [on_next_save, save_state_answers, hstep]
    show dictGet (dictSet st.answers "signature_name"
      (normalize_value inp.text_val "text")) "signature_name" "" = _
    exact dictGet_dictSet_self st.answers "signature_name" _ ""

/-! ## Lemmas about the overlay compositor -/

theorem drawFieldsOnPage_allOk (answers : List (String × String)) (pi : Nat) :
    ∀ l, drawFieldsOnPage allOk answers pi l = Except.ok (pageCmds answers pi l) := by
  intro l
  induction l with
  | nil => rfl
  | cons entry rest ih =>
    obtain ⟨key, p_idx, x, y⟩ := entry
    by_cases hp : p_idx ≠ pi
    · simp only [drawFieldsOnPage, pageCmds, if_pos hp]
      exact ih
    · simp only [drawFieldsOnPage, pageCmds, if_neg hp]
      by_cases hv : dictGet answers key "" = ""
      · rw [if_pos hv, if_pos hv]
        exact ih
      · rw [if_neg hv, if_neg hv]
        simp only [allOk, ih, if_true]

theorem buildOverlayPages_allOk (answers : List (String × String)) :
    ∀ l, buildOverlayPages allOk answers l =
      Except.ok (l.map (fun pi => pageCmds answers pi PDF_FIELD_POSITIONS)) := by
  intro l
  induction l with
  | nil => rfl
  | cons pi rest ih =>
    simp only [buildOverlayPages, drawFieldsOnPage_allOk, ih, List.map_cons]

theorem create_overlay_allOk (answers : List (String × String)) (num_pages : Nat) :
    create_overlay_pdf allOk answers num_pages =
      Except.ok ((List.range num_pages).map
        (fun pi => pageCmds answers pi PDF_FIELD_POSITIONS)) :=
  buildOverlayPages_allOk answers (List.range num_pages)

theorem mergePages_length (tpl : List Nat) (ov : List (List DrawCmd)) :
    (mergePages tpl ov).length = tpl.length := by
  simp [mergePages]

theorem drawFieldsOnPage_error (drawOk : DrawCmd → Bool) (answers : List (String × String))
    (pi : Nat) : ∀ l e, drawFieldsOnPage drawOk answers pi l = Except.error e →
      ∃ k, e = RenderError.drawFail k := by
  intro l
  induction l with
  | nil => intro e h; exact Except.noConfusion h
  | cons entry rest ih =>
    obtain ⟨key, p_idx, x, y⟩ := entry
    intro e h
    by_cases hp : p_idx ≠ pi
    · rw [show drawFieldsOnPage drawOk answers pi ((key, p_idx, x, y) :: rest) =
        drawFieldsOnPage drawOk answers pi rest by
          simp only [drawFieldsOnPage, if_pos hp]] at h
      exact ih e h
    · simp only [drawFieldsOnPage, if_neg hp] at h
      by_cases hv : dictGet answers key "" = ""
      · rw [if_pos hv] at h
        exact ih e h
      · rw [if_neg hv] at h
        by_cases hd : drawOk (DrawCmd.mk key x y (dictGet answers key "")) = true
        · rw [if_pos hd] at h
          cases hr : drawFieldsOnPage drawOk answers pi rest with
          | ok cmds => rw [hr] at h; exact Except.noConfusion h
          | error e2 =>
            rw [hr] at h
            have he : e2 = e := Except.error.inj h
            exact he ▸ ih e2 hr
        · rw [if_neg hd] at h
          have he : RenderError.drawFail key = e := Except.error.inj h
          exact ⟨key, he.symm⟩

theorem buildOverlayPages_error (drawOk : DrawCmd → Bool) (answers : List (String × String)) :
    ∀ l e, buildOverlayPages drawOk answers l = Except.error e →
      ∃ k, e = RenderError.drawFail k := by
  intro l
  induction l with
  | nil => intro e h; exact Except.noConfusion h
  | cons pi rest ih =>
    intro e h
    simp only [buildOverlayPages] at h
    cases hd : drawFieldsOnPage drawOk answers pi PDF_FIELD_POSITIONS with
    | error e1 =>
      rw [hd] at h
      have he : e1 = e := Except.error.inj h
      exact he ▸ drawFieldsOnPage_error drawOk answers pi PDF_FIELD_POSITIONS e1 hd
    | ok cmds =>
      rw [hd] at h
      cases hb : buildOverlayPages drawOk answers rest with
      | error e2 =>
        rw [hb] at h
        have he : e2 = e := Except.error.inj h
        exact he ▸ ih e2 hb
      | ok pages => rw [hb] at h; exact Except.noConfusion h

theorem fill_pdf_true (drawOk : DrawCmd → Bool) (tpl : List Nat)
    (answers : List (String × String)) :
    fill_pdf drawOk true tpl answers =
      match create_overlay_pdf drawOk answers tpl.length with
      | Except.error e => Except.error e
      | Except.ok ov => Except.ok (mergePages tpl ov) := rfl

theorem on_next_download (drawOk : DrawCmd → Bool) (templateExists : Bool) (tpl : List Nat)
    (st : IState) (inp : Inputs) :
    (on_next_or_finish drawOk templateExists tpl st inp).download =
      (if st.step = (QUESTIONS.length : Int) - 1 then
        match fill_pdf drawOk templateExists tpl (save_answer_and_move st inp
            (if st.step = (QUESTIONS.length : Int) - 1 then 0 else 1)).state.answers with
        | Except.ok out => (Option.some out,
            "PDF generated successfully. Review and sign where required before filing.")
        | Except.error e => (Option.none, "Could not generate PDF: " ++ errMsg e)
      else (Option.none, "")).1 := rfl

theorem on_next_status (drawOk : DrawCmd → Bool) (templateExists : Bool) (tpl : List Nat)
    (st : IState) (inp : Inputs) :
    (on_next_or_finish drawOk templateExists tpl st inp).status =
      (if st.step = (QUESTIONS.length : Int) - 1 then
        match fill_pdf drawOk templateExists tpl (save_answer_and_move st inp
            (if st.step = (QUESTIONS.length : Int) - 1 then 0 else 1)).state.answers with
        | Except.ok out => (Option.some out,
            "PDF generated successfully. Review and sign where required before filing.")
        | Except.error e => (Option.none, "Could not generate PDF: " ++ errMsg e)
      else (Option.none, "")).2 := rfl

theorem pageCmds_key_of_mem (answers : List (String × String)) (pi : Nat) :
    ∀ l (c : DrawCmd), c ∈ pageCmds answers pi l →
      ∃ k x y, (k, pi, x, y) ∈ l ∧ dictGet answers k "" ≠ "" ∧
        c = DrawCmd.mk k x y (dictGet answers k "") := by
  intro l
  induction l with
  | nil => intro c hc; simp [pageCmds] at hc
  | cons entry rest ih =>
    obtain ⟨k0, p0, x0, y0⟩ := entry
    intro c hc
    by_cases hp : p0 ≠ pi
    · simp only [pageCmds, if_pos hp] at hc
      obtain ⟨k, x, y, hmem, hne, hceq⟩ := ih c hc
      exact ⟨k, x, y, List.mem_cons_of_mem _ hmem, hne, hceq⟩
    · obtain rfl : p0 = pi := not_not.mp hp
      simp only [pageCmds, if_neg hp] at hc
      by_cases hv : dictGet answers k0 "" = ""
      · rw [if_pos hv] at hc
        obtain ⟨k, x, y, hmem, hne, hceq⟩ := ih c hc
        exact ⟨k, x, y, List.mem_cons_of_mem _ hmem, hne, hceq⟩
      · rw [if_neg hv] at hc
        rcases List.mem_cons.mp hc with hceq | hc2
        · exact ⟨k0, x0, y0, List.mem_cons_self _ _, hv, hceq⟩
        · obtain ⟨k, x, y, hmem, hne, hceq⟩ := ih c hc2
          exact ⟨k, x, y, List.mem_cons_of_mem _ hmem, hne, hceq⟩

theorem mem_pageCmds_of (answers : List (String × String)) (pi : Nat) (k : String)
    (x y : Nat) : ∀ l, (k, pi, x, y) ∈ l → dictGet answers k "" ≠ "" →
      DrawCmd.mk k x y (dictGet answers k "") ∈ pageCmds answers pi l := by
  intro l
  induction l with
  | nil => intro h _; simp at h
  | cons entry rest ih =>
    obtain ⟨k0, p0, x0, y0⟩ := entry
    intro hmem hne
    rcases List.mem_cons.mp hmem with heq | hmem2
    · simp only [Prod.mk.injEq] at heq
      obtain ⟨rfl, rfl, rfl, rfl⟩ := heq
      simp only [pageCmds]
      rw [if_neg (not_not_intro rfl), if_neg hne]
      exact List.mem_cons_self _ _
    · simp only [pageCmds]
      by_cases hp : p0 ≠ pi
      · rw [if_pos hp]
        exact ih hmem2 hne
      · rw [if_neg hp]
        by_cases hv : dictGet answers k0 "" = ""
        · rw [if_pos hv]
          exact ih hmem2 hne
        · rw [if_neg hv]
          exact List.mem_cons_of_mem _ (ih hmem2 hne)

/-- C5: for every answer set and every template document with P pages,
a successful render returns an output document with exactly P pages (and
when no draw fails, the render does succeed); defensively, if the overlay
document is shorter than the template, the merge keeps the template's
page count and passes the remaining template pages through unmodified. -/
theorem C5_output_page_count :
    (∀ (drawOk : DrawCmd → Bool) (tpl : List Nat) (answers : List (String × String))
        (out : List OutPage), fill_pdf drawOk true tpl answers = Except.ok out →
        out.length = tpl.length) ∧
    (∀ (answers : List (String × String)) (tpl : List Nat),
      ∃ out, fill_pdf allOk true tpl answers = Except.ok out ∧ out.length = tpl.length) ∧
    (∀ (tpl : List Nat) (ov : List (List DrawCmd)),
      (mergePages tpl ov).length = tpl.length) ∧
    (∀ (tpl : List Nat) (ov : List (List DrawCmd)) (i t : Nat),
      ov.length ≤ i → tpl[i]? = Option.some t →
      (mergePages tpl ov)[i]? = Option.some (OutPage.plain t)) := by
  refine ⟨?_, ?_, mergePages_length, ?_⟩
  · intro drawOk tpl answers out h
    rw [fill_pdf_true] at h
    cases hc : create_overlay_pdf drawOk answers tpl.length with
    | error e => rw [hc] at h; exact Except.noConfusion h
    | ok ov =>
      rw [hc] at h
      rw [← Except.ok.inj h]
      exact mergePages_length tpl ov
  · intro answers tpl
    refine ⟨mergePages tpl ((List.range tpl.length).map
      (fun pi => pageCmds answers pi PDF_FIELD_POSITIONS)), ?_, mergePages_length tpl _⟩
    rw [fill_pdf_true, create_overlay_allOk]
  · intro tpl ov i t hle hi
    have hlt : i < tpl.length := by
      rcases List.getElem?_eq_some.mp hi with ⟨w, _⟩
      exact w
    have hno : ¬ i < ov.length := by omega
    rw [mergePages, List.getElem?_map, List.getElem?_range hlt, Option.map_some',
      if_neg hno, List.getD_eq_getElem?_getD, hi, Option.getD_some]

/-- C6: render fails with the distinct `templateMissing` error kind
exactly when the template document cannot be resolved at the configured
location; the message includes the configured location string
`TEMPLATE_PDF_PATH`, and in that case no output document is produced. -/
theorem C6_template_missing (drawOk : DrawCmd → Bool) (tpl : List Nat)
    (answers : List (String × String)) :
    fill_pdf drawOk false tpl answers =
        Except.error (RenderError.templateMissing templateMissingMsg) ∧
      (∃ a b, templateMissingMsg = a ++ TEMPLATE_PDF_PATH ++ b) ∧
      (∀ out, fill_pdf drawOk false tpl answers ≠ Except.ok out) ∧
      (∀ e, fill_pdf drawOk true tpl answers = Except.error e →
        ∀ m, e ≠ RenderError.templateMissing m) := by
  refine ⟨rfl, ⟨"Template PDF not found at '",
    "'. Place the IFP form in the repository and update TEMPLATE_PDF_PATH if needed.",
    rfl⟩, ?_, ?_⟩
  · intro out h
    have h0 : fill_pdf drawOk false tpl answers =
        Except.error (RenderError.templateMissing templateMissingMsg) := rfl
    rw [h0] at h
    exact Except.noConfusion h
  · intro e hf m
    rw [fill_pdf_true] at hf
    cases hc : create_overlay_pdf drawOk answers tpl.length with
    | ok ov => rw [hc] at hf; exact Except.noConfusion hf
    | error e1 =>
      rw [hc] at hf
      obtain ⟨k, hk⟩ := buildOverlayPages_error drawOk answers (List.range tpl.length) e1 hc
      have he : e1 = e := Except.error.inj hf
      rw [← he, hk]
      intro hcon
      exact RenderError.noConfusion hcon

/-- C8: during overlay generation, a field position whose answer is the
empty string emits no draw command on any page (blank answers never
produce a visible artifact), while a field position whose answer is
non-empty and whose page is rendered gets that value drawn as one
command at its coordinates on its page. -/
theorem C8_blank_field_no_draw (answers : List (String × String)) (num_pages : Nat)
    (key : String) (p x y : Nat) (hmem : (key, p, x, y) ∈ PDF_FIELD_POSITIONS) :
    (∀ pages, dictGet answers key "" = "" →
      create_overlay_pdf allOk answers num_pages = Except.ok pages →
      ∀ pg ∈ pages, ∀ c ∈ pg, c.fieldKey ≠ key) ∧
    (dictGet answers key "" ≠ "" → p < num_pages →
      ∃ pages pg, create_overlay_pdf allOk answers num_pages = Except.ok pages ∧
        pages[p]? = Option.some pg ∧
        DrawCmd.mk key x y (dictGet answers key "") ∈ pg) := by
  constructor
  · intro pages hempty hok pg hpg c hc
    rw [create_overlay_allOk] at hok
    obtain rfl := Except.ok.inj hok
    obtain ⟨pi, hpi, rfl⟩ := List.mem_map.mp hpg
    obtain ⟨k2, x2, y2, hmem2, hne2, rfl⟩ := pageCmds_key_of_mem answers pi _ c hc
    intro hkey
    apply hne2
    rw [show k2 = key from hkey]
    exact hempty
  · intro hne hp
    refine ⟨(List.range num_pages).map (fun pi => pageCmds answers pi PDF_FIELD_POSITIONS),
      pageCmds answers p PDF_FIELD_POSITIONS, create_overlay_allOk answers num_pages,
      ?_, mem_pageCmds_of answers p key x y PDF_FIELD_POSITIONS hmem hne⟩
    rw [List.getElem?_map, List.getElem?_range hp, Option.map_some']

/-- C2 counterexample: with the template present and every draw
succeeding except those of the single field `full_name`, the claimed
skip-and-continue behaviour does not happen - the render aborts with the
draw failure, so no output document is produced, even though another
pending field (`address`) would have drawn fine. -/
theorem C2_counterexample :
    cexDrawOk (DrawCmd.mk "address" 120 680 "12 Oak Lane") = true ∧
      dictGet cexAnswers "address" "" = "12 Oak Lane" ∧
      fill_pdf cexDrawOk true [0] cexAnswers =
        Except.error (RenderError.drawFail "full_name") ∧
      (on_next_or_finish cexDrawOk true [0]
        (IState.mk ((QUESTIONS.length : Int) - 1) cexAnswers) blankInputs).download =
        Option.none := by
  refine ⟨rfl, rfl, rfl, rfl⟩

/-- C2 as amended: a failure while drawing the text of a single field
aborts the whole render - the exception propagates out of overlay
generation, `fill_pdf` reports it and produces no output document, and
the finalize handler catches it, showing a failure status and no
download. -/
theorem C2_field_failure_aborts_render :
    (∀ (drawOk : DrawCmd → Bool) (tpl : List Nat) (answers : List (String × String)) e,
      create_overlay_pdf drawOk answers tpl.length = Except.error e →
      fill_pdf drawOk true tpl answers = Except.error e ∧
        ∀ out, fill_pdf drawOk true tpl answers ≠ Except.ok out) ∧
    (∀ (drawOk : DrawCmd → Bool) (tpl : List Nat) (st : IState) (inp : Inputs) e,
      st.step = (QUESTIONS.length : Int) - 1 →
      fill_pdf drawOk true tpl (save_answer_and_move st inp 0).state.answers =
        Except.error e →
      (on_next_or_finish drawOk true tpl st inp).download = Option.none ∧
        (on_next_or_finish drawOk true tpl st inp).status =
          "Could not generate PDF: " ++ errMsg e) := by
  constructor
  · intro drawOk tpl answers e hc
    have hfill : fill_pdf drawOk true tpl answers = Except.error e := by
      rw [fill_pdf_true, hc]
    refine ⟨hfill, ?_⟩
    intro out h
    rw [hfill] at h
    exact Except.noConfusion h
  · intro drawOk tpl st inp e hstep hfill
    constructor
    · rw [on_next_download]
      simp only [hstep, if_true, hfill]
    · rw [on_next_status]
      simp only [hstep, if_true, hfill]

/-! ## Numeric normalization -/

theorem decIsInteger_iff (d : DecNum) :
    decIsInteger d = true ↔ ∃ k : ℤ, decVal d = (k : ℚ) := by
  obtain ⟨neg, mant, f⟩ := d
  have hp : ((10 : ℚ) ^ f) ≠ 0 := by positivity
  cases neg with
  | false =>
    simp only [decIsInteger, decVal, beq_iff_eq, Bool.false_eq_true, if_false, one_mul]
    constructor
    · intro h
      obtain ⟨c, hc⟩ := Nat.dvd_of_mod_eq_zero h
      refine ⟨(c : ℤ), ?_⟩
      rw [hc]
      push_cast
      field_simp
    · rintro ⟨k, hk⟩
      rw [div_eq_iff hp] at hk
      have h4 : (mant : ℤ) = k * 10 ^ f := by exact_mod_cast hk
      have h5 : ((10 : ℤ) ^ f) ∣ (mant : ℤ) := ⟨k, by rw [h4, mul_comm]⟩
      have h6 : 10 ^ f ∣ mant := by exact_mod_cast h5
      exact Nat.mod_eq_zero_of_dvd h6
  | true =>
    simp only [decIsInteger, decVal, beq_iff_eq, if_true, neg_one_mul]
    constructor
    · intro h
      obtain ⟨c, hc⟩ := Nat.dvd_of_mod_eq_zero h
      refine ⟨-(c : ℤ), ?_⟩
      rw [hc]
      push_cast
      field_simp
      ring
    · rintro ⟨k, hk⟩
      rw [div_eq_iff hp] at hk
      have h4 : -(mant : ℤ) = k * 10 ^ f := by exact_mod_cast hk
      have h5 : ((10 : ℤ) ^ f) ∣ (mant : ℤ) := ⟨-k, by rw [show (mant : ℤ) = -k * 10 ^ f by linarith, mul_comm]⟩
      have h6 : 10 ^ f ∣ mant := by exact_mod_cast h5
      exact Nat.mod_eq_zero_of_dvd h6

/-- C3: normalization of a number-typed question is total - the three
documented examples hold; a raw string that fails the numeric parse is
stored unchanged (no error); and a parsed value is stored as the
canonical integer string exactly when its value is a mathematical
integer, and otherwise as a string ending in a decimal point and exactly
two decimal digits. -/
theorem C3_number_normalization :
    (normalize_value (RawValue.str "1500.0") "number" = "1500" ∧
      normalize_value (RawValue.str "1500.5") "number" = "1500.50" ∧
      normalize_value (RawValue.str "abc") "number" = "abc") ∧
    (∀ s : String, parseDec s = Option.none →
      normalize_value (RawValue.str s) "number" = s) ∧
    (∀ (v : RawValue) (d : DecNum), tryFloat v = Option.some d →
      ((∃ k : ℤ, decVal d = (k : ℚ)) → normalize_value v "number" = pyIntStr d) ∧
      ((¬ ∃ k : ℤ, decVal d = (k : ℚ)) →
        normalize_value v "number" = twoDecStr d ∧
        ∃ pre last2, normalize_value v "number" = pre ++ "." ++ last2 ∧
          last2.length = 2)) := by
  refine ⟨⟨rfl, rfl, rfl⟩, ?_, ?_⟩
  · intro s h
    have h0 : normalize_value (RawValue.str s) "number" =
        match parseDec s with
        | Option.some n => if decIsInteger n then pyIntStr n else twoDecStr n
        | Option.none => s := rfl
    rw [h0, h]
  · intro v d hd
    have hv : normalize_value v "number" =
        if decIsInteger d then pyIntStr d else twoDecStr d := by
      cases v with
      | none => exact Option.noConfusion hd
      | str s =>
        have h0 : normalize_value (RawValue.str s) "number" =
            match parseDec s with
            | Option.some n => if decIsInteger n then pyIntStr n else twoDecStr n
            | Option.none => s := rfl
        have hps : parseDec s = Option.some d := hd
        rw [h0, hps]
      | num d2 =>
        have h0 : normalize_value (RawValue.num d2) "number" =
            if decIsInteger d2 then pyIntStr d2 else twoDecStr d2 := rfl
        have h1 : d2 = d := Option.some.inj hd
        rw [h0, h1]
    constructor
    · intro hint
      rw [hv, if_pos ((decIsInteger_iff d).mpr hint)]
    · intro hnint
      have hfalse : decIsInteger d = false := by
        cases hb : decIsInteger d with
        | true => exact absurd ((decIsInteger_iff d).mp hb) hnint
        | false => rfl
      rw [hv, if_neg (by rw [hfalse]; exact Bool.false_ne_true)]
      refine ⟨rfl, (if d.neg then "-" else "") ++
        toString (roundHalfEven (d.mant * 100) (10 ^ d.fracDigits) / 100),
        String.mk [Nat.digitChar (roundHalfEven (d.mant * 100) (10 ^ d.fracDigits) / 10 % 10),
          Nat.digitChar (roundHalfEven (d.mant * 100) (10 ^ d.fracDigits) % 10)],
        rfl, rfl⟩

/-! ## Witnesses at concrete inputs -/

theorem C7_finalize_includes_last_answer_witness :
    (on_next_or_finish allOk true [0] wStateLast wInputs).finalized =
        Option.some (on_next_or_finish allOk true [0] wStateLast wInputs).save.state.answers ∧
      (on_next_or_finish allOk true [0] wStateLast wInputs).save.state.step =
        (QUESTIONS.length : Int) - 1 ∧
      (QUESTIONS.getD (QUESTIONS.length - 1) qFallback).key = "signature_name" ∧
      dictGet (on_next_or_finish allOk true [0] wStateLast wInputs).save.state.answers
        "signature_name" "" = normalize_value wInputs.text_val "text" :=
  C7_finalize_includes_last_answer allOk true [0] wStateLast wInputs rfl

theorem C8_blank_field_no_draw_witness :
    (DrawCmd.mk "phone" 120 640 "555").fieldKey ≠ "email" ∧
      (∃ pages pg, create_overlay_pdf allOk wAnswers 1 = Except.ok pages ∧
        pages[0]? = Option.some pg ∧
        DrawCmd.mk "phone" 120 640 (dictGet wAnswers "phone" "") ∈ pg) :=
  ⟨(C8_blank_field_no_draw wAnswers 1 "email" 0 360 640 (by decide)).1
      [[DrawCmd.mk "phone" 120 640 "555"]] rfl rfl
      [DrawCmd.mk "phone" 120 640 "555"] (by decide)
      (DrawCmd.mk "phone" 120 640 "555") (by decide),
    (C8_blank_field_no_draw wAnswers 1 "phone" 0 120 640 (by decide)).2
      (by decide) (by decide)⟩

theorem C9_retreat_at_zero_witness :
    (on_back default_state wInputs).state.step = 0 ∧
      (QUESTIONS.getD 0 qFallback).key = "full_name" ∧
      dictGet (on_back default_state wInputs).state.answers "full_name" "" =
        normalize_value wInputs.text_val "text" :=
  C9_retreat_at_zero default_state wInputs rfl

theorem C10_transition_frame_witness :
    dictGet (on_next_or_finish allOk true [0] default_state wInputs).save.state.answers
        "phone" "" = dictGet default_state.answers "phone" "" ∧
      dictGet (on_back default_state wInputs).state.answers "phone" "" =
        dictGet default_state.answers "phone" "" :=
  C10_transition_frame allOk true [0] default_state wInputs "phone" "" (by decide)

end IFP
